import Mathlib

/-!
Shallow embedding of the TechComm AI learning app (React/TypeScript) and
verification of its specification claims.

Sources embedded:
  * src/types.ts        — data model
  * src/App.tsx         — progression engine, state load, error banner
  * src/components/WritingView.tsx  — WritingView and ReadingView session logic
  * src/components/Dashboard (unnamed part_000) — tier mapping
  * src/services/geminiService.ts   — LLM call result processing, level context

Machine numbers are modelled as Nat/Int/ℚ; `Math.round` on a non-negative
rational is `round : ℚ → ℤ` (both are floor(x + 1/2) there).  Fallible code
returns `Except`.  External collaborators (the LLM transport, JSON.parse,
localStorage) are passed in as explicit arguments.
-/

namespace TechComm

/-- src/types.ts: the exercise kind `'reading' | 'writing'`. -/
inductive ExKind where
  | reading
  | writing
deriving DecidableEq, Repr

/-- src/types.ts: `ExerciseResult`. -/
structure ExerciseResult where
  id : String
  type : ExKind
  score : Nat
  date : String
  level : Nat
deriving DecidableEq, Repr

/-- src/types.ts: `UserState`. -/
structure UserState where
  level : Nat
  xp : Nat
  xpToNextLevel : Nat
  history : List ExerciseResult
deriving DecidableEq, Repr

/-- src/App.tsx line 9: `const XP_PER_LEVEL = 100`. -/
def XP_PER_LEVEL : Nat := 100

/-- src/App.tsx line 10: `const MAX_LEVEL = 50`. -/
def MAX_LEVEL : Nat := 50

/-- src/App.tsx lines 44-76: `handleExerciseComplete` (the state-update part of
the `setUserState` callback).  `Math.round(score * 1.5)` on an integer score is
exact in IEEE doubles and equals `(3 * score + 1) / 2` in Nat division.
The `id` and `date` fields come from `Date.now()` / `new Date()`; the caller
supplies them as `now`. -/
def handleExerciseComplete (now : String) (score : Nat) (ty : ExKind)
    (prev : UserState) : UserState :=
  let xpGained := (3 * score + 1) / 2
  let newXp := prev.xp + xpGained
  let res :=
    if newXp ≥ prev.xpToNextLevel ∧ prev.level < MAX_LEVEL then
      (newXp - prev.xpToNextLevel, prev.level + 1)
    else if prev.level = MAX_LEVEL then
      (prev.xpToNextLevel, prev.level)
    else
      (newXp, prev.level)
  { level := res.2
    xp := res.1
    xpToNextLevel := prev.xpToNextLevel
    history := prev.history ++
      [{ id := now, type := ty, score := score, date := now, level := prev.level }] }

/-- Nat-division fact: `(3*s+1)/2` is `round (s * 1.5)`. -/
theorem xpGained_eq_round (s : Nat) :
    (((3 * s + 1) / 2 : ℕ) : ℤ) = round ((s : ℚ) * (3 / 2)) := by
  have h : (s : ℚ) * (3 / 2) + 1 / 2 = ((3 * s + 1 : ℤ) : ℚ) / ((2 : ℕ) : ℚ) := by
    push_cast
    ring
  rw [round_eq, h, Rat.floor_intCast_div_natCast]
  omega

/-- C1: for a starting progress state with level L < 50, experience E,
threshold T and a score in 0..100, `handleExerciseComplete` gains
`xpGained = round(score * 1.5)`; if `E + xpGained ≥ T` the level becomes
`L + 1` and the experience `E + xpGained - T` (exactly one increment, even if
the remainder is still ≥ T); otherwise the level is unchanged and the
experience is `E + xpGained`. -/
theorem C1_progression_step (now : String) (ty : ExKind) (L E T score : Nat)
    (h0 : List ExerciseResult) (hL : L < 50) (hs : score ≤ 100) :
    ((((3 * score + 1) / 2 : ℕ) : ℤ) = round ((score : ℚ) * (3 / 2))) ∧
    (T ≤ E + (3 * score + 1) / 2 →
      (handleExerciseComplete now score ty ⟨L, E, T, h0⟩).level = L + 1 ∧
      (handleExerciseComplete now score ty ⟨L, E, T, h0⟩).xp
        = E + (3 * score + 1) / 2 - T) ∧
    (E + (3 * score + 1) / 2 < T →
      (handleExerciseComplete now score ty ⟨L, E, T, h0⟩).level = L ∧
      (handleExerciseComplete now score ty ⟨L, E, T, h0⟩).xp
        = E + (3 * score + 1) / 2) := by
  refine ⟨xpGained_eq_round score, ?_, ?_⟩ <;>
    · intro h
      simp only [handleExerciseComplete, MAX_LEVEL]
      constructor <;> (split_ifs <;> simp_all <;> omega)

/-- C1 witness: the spec scenario level 5, experience 90, threshold 100,
score 80 gives level 6 and experience 110 (a single level-up). -/
theorem C1_progression_step_witness :
    (5 : ℕ) < 50 ∧ (80 : ℕ) ≤ 100 ∧
    (handleExerciseComplete "t" 80 .reading ⟨5, 90, 100, []⟩).level = 6 ∧
    (handleExerciseComplete "t" 80 .reading ⟨5, 90, 100, []⟩).xp = 110 := by
  have h := (C1_progression_step "t" .reading 5 90 100 80 [] (by decide)
    (by decide)).2.1 (by norm_num)
  exact ⟨by decide, by decide, h.1, by rw [h.2]⟩

/-- C4: at level exactly 50 the level never changes and the resulting
experience is clamped to the threshold `xpToNextLevel`. -/
theorem C4_max_level_clamp (now : String) (ty : ExKind) (E T score : Nat)
    (h0 : List ExerciseResult) (hs : score ≤ 100) :
    (handleExerciseComplete now score ty ⟨50, E, T, h0⟩).level = 50 ∧
    (handleExerciseComplete now score ty ⟨50, E, T, h0⟩).xp = T := by
  simp [handleExerciseComplete, MAX_LEVEL]

/-- C4 witness: at level 50 with a large score the level stays 50 and the
experience is set back to the threshold 100. -/
theorem C4_max_level_clamp_witness :
    (100 : ℕ) ≤ 100 ∧
    (handleExerciseComplete "t" 100 .writing ⟨50, 40, 100, []⟩).level = 50 ∧
    (handleExerciseComplete "t" 100 .writing ⟨50, 40, 100, []⟩).xp = 100 := by
  have h := C4_max_level_clamp "t" .writing 40 100 100 [] (by decide)
  exact ⟨by decide, h.1, h.2⟩

/-! ## C6: history is append-only -/

/-- A sequence of completions, each given as (timestamp, score, kind). -/
abbrev Completion := String × Nat × ExKind

/-- Repeated application of `handleExerciseComplete` (src/App.tsx lines 44-76),
one call per completed exercise, in order. -/
def applyList (s : UserState) (xs : List Completion) : UserState :=
  xs.foldl (fun acc x => handleExerciseComplete x.1 x.2.1 x.2.2 acc) s

/-- Spec-side (claim C6): the history entries the claim predicts — one entry
per completion in completion order, each carrying the level held immediately
before its own progression update. -/
def expectedEntries : UserState → List Completion → List ExerciseResult
  | _, [] => []
  | s, x :: rest =>
      { id := x.1, type := x.2.2, score := x.2.1, date := x.1, level := s.level } ::
        expectedEntries (handleExerciseComplete x.1 x.2.1 x.2.2 s) rest

theorem expectedEntries_length (s : UserState) (xs : List Completion) :
    (expectedEntries s xs).length = xs.length := by
  induction xs generalizing s with
  | nil => rfl
  | cons x rest ih => simp [expectedEntries, ih]

theorem applyList_history (s : UserState) (xs : List Completion) :
    (applyList s xs).history = s.history ++ expectedEntries s xs := by
  induction xs generalizing s with
  | nil => simp [applyList, expectedEntries]
  | cons x rest ih =>
      simp only [applyList, List.foldl_cons, expectedEntries]
      rw [show List.foldl (fun acc y => handleExerciseComplete y.1 y.2.1 y.2.2 acc)
            (handleExerciseComplete x.1 x.2.1 x.2.2 s) rest
          = applyList (handleExerciseComplete x.1 x.2.1 x.2.2 s) rest from rfl, ih]
      simp [handleExerciseComplete]

/-- C6: after N completions the history is the original history followed by
exactly N new entries, in completion order, and each new entry records the
level held immediately before its own progression update
(`expectedEntries`); in particular the length grows by exactly N and the
original entries are untouched. -/
theorem C6_history_append_only (s : UserState) (xs : List Completion) :
    (applyList s xs).history = s.history ++ expectedEntries s xs ∧
    (applyList s xs).history.length = s.history.length + xs.length := by
  refine ⟨applyList_history s xs, ?_⟩
  rw [applyList_history s xs]
  simp [expectedEntries_length]

/-! ## C7: difficulty tiers and level context -/

/-- src/types.ts: `DifficultyTier` (a string enum; `tierLabel` gives the
string values). -/
inductive DifficultyTier where
  | BEGINNER
  | INTERMEDIATE
  | ADVANCED
deriving DecidableEq, Repr

/-- The string values of the `DifficultyTier` enum in src/types.ts. -/
def tierLabel : DifficultyTier → String
  | .BEGINNER => "Beginner (Basic Communication)"
  | .INTERMEDIATE => "Intermediate (Technical Discussion)"
  | .ADVANCED => "Advanced (Management & Strategy)"

/-- src/components/Dashboard (unnamed part_000 lines 14-18): `getTier`. -/
def getTier (level : Nat) : DifficultyTier :=
  if level ≤ 20 then .BEGINNER
  else if level ≤ 40 then .INTERMEDIATE
  else .ADVANCED

/-- src/services/geminiService.ts lines 121-129: the three level-context
strings returned by `getLevelContext`. -/
def beginnerContext : String :=
  "レベル: 初級 (Level 1-20)。ユーザーはほとんどコミュニケーションが取れません。シンプルな語彙、短い文章、非常に明確な文脈を使用してください。"

def intermediateContext : String :=
  "レベル: 中級 (Level 21-40)。ユーザーは標準的なエンジニアです。専門用語（API, Latency, PR, CI/CDなど）を自由に使用してください。"

def advancedContext : String :=
  "レベル: 上級 (Level 41-50)。ユーザーはマネージャーまたはリードです。洗練された言語、イディオム、ニュアンスを使用してください。"

/-- src/services/geminiService.ts lines 121-129: `getLevelContext`. -/
def getLevelContext (level : Nat) : String :=
  if level ≤ 20 then beginnerContext
  else if level ≤ 40 then intermediateContext
  else advancedContext

theorem beginnerContext_ne_intermediateContext :
    beginnerContext ≠ intermediateContext := by decide

theorem beginnerContext_ne_advancedContext :
    beginnerContext ≠ advancedContext := by decide

theorem intermediateContext_ne_advancedContext :
    intermediateContext ≠ advancedContext := by decide

/-- C7: for every level in 1..50 the tier is exactly one of the three tiers
with exact boundaries (1..20 Beginner, 21..40 Intermediate, 41..50 Advanced),
and the level-to-prompt-context mapping has the same boundaries.  Both are
plain total functions, hence pure and deterministic. -/
theorem C7_tier_boundaries (level : Nat) (h1 : 1 ≤ level) (h2 : level ≤ 50) :
    (getTier level = .BEGINNER ↔ level ≤ 20) ∧
    (getTier level = .INTERMEDIATE ↔ 21 ≤ level ∧ level ≤ 40) ∧
    (getTier level = .ADVANCED ↔ 41 ≤ level) ∧
    (getLevelContext level = beginnerContext ↔ level ≤ 20) ∧
    (getLevelContext level = intermediateContext ↔ 21 ≤ level ∧ level ≤ 40) ∧
    (getLevelContext level = advancedContext ↔ 41 ≤ level) := by
  interval_cases level <;> exact ⟨by decide, by decide, by decide, by decide,
    by decide, by decide⟩

/-- C7 witness: the boundary levels 20, 21, 40, 41 land on Beginner,
Intermediate, Intermediate and Advanced. -/
theorem C7_tier_boundaries_witness :
    ((1 : ℕ) ≤ 20 ∧ (20 : ℕ) ≤ 50 ∧ getTier 20 = .BEGINNER) ∧
    (getTier 21 = .INTERMEDIATE) ∧
    (getTier 40 = .INTERMEDIATE) ∧
    (getTier 41 = .ADVANCED) := by
  refine ⟨⟨by decide, by decide, ?_⟩, ?_, ?_, ?_⟩
  · exact (C7_tier_boundaries 20 (by decide) (by decide)).1.mpr (by decide)
  · exact (C7_tier_boundaries 21 (by decide) (by decide)).2.1.mpr (by decide)
  · exact (C7_tier_boundaries 40 (by decide) (by decide)).2.1.mpr (by decide)
  · exact (C7_tier_boundaries 41 (by decide) (by decide)).2.2.1.mpr (by decide)

/-! ## C8: startup load of the persisted record -/

/-- src/App.tsx lines 20-28: the default `UserState`. -/
def defaultUserState : UserState :=
  { level := 1, xp := 0, xpToNextLevel := XP_PER_LEVEL, history := [] }

/-- src/App.tsx lines 17-30: the `useState` initializer.  `saved` models
`localStorage.getItem` (`none` = absent); `parse` models `JSON.parse`
(`none` = the parse threw, caught by the surrounding try/catch).  A falsy
saved value (absent or the empty string) also yields the default. -/
def loadUserState (parse : String → Option UserState)
    (saved : Option String) : UserState :=
  match saved with
  | none => defaultUserState
  | some s =>
      if s = "" then defaultUserState
      else
        match parse s with
        | none => defaultUserState
        | some u => u

/-- C8: startup load yields the default record (level 1, experience 0,
threshold 100, empty history) whenever the stored value is absent or fails to
parse, and otherwise uses the stored record; as a total Lean function it
never throws. -/
theorem C8_load_default (parse : String → Option UserState) :
    loadUserState parse none = defaultUserState ∧
    loadUserState parse (some "") = defaultUserState ∧
    (∀ s, parse s = none → loadUserState parse (some s) = defaultUserState) ∧
    (∀ s u, s ≠ "" → parse s = some u → loadUserState parse (some s) = u) := by
  refine ⟨rfl, rfl, ?_, ?_⟩
  · intro s hp
    simp only [loadUserState]
    split_ifs with h
    · rfl
    · rw [hp]
  · intro s u hs hp
    simp only [loadUserState]
    split_ifs with h
    · exact absurd h hs
    · rw [hp]

/-- C8 witness: an always-failing parse yields the default on a stored
string, and a successful parse yields the stored record. -/
theorem C8_load_default_witness :
    loadUserState (fun _ => none) (some "bad") = defaultUserState ∧
    loadUserState (fun _ => some ⟨7, 5, 100, []⟩) (some "rec")
      = (⟨7, 5, 100, []⟩ : UserState) := by
  refine ⟨(C8_load_default (fun _ => none)).2.2.1 "bad" rfl, ?_⟩
  exact (C8_load_default (fun _ => some ⟨7, 5, 100, []⟩)).2.2.2 "rec"
    ⟨7, 5, 100, []⟩ (by decide) rfl

/-! ## C5: reading score computation -/

/-- src/types.ts: `ReadingQuestion`. -/
structure ReadingQuestion where
  question : String
  options : List String
  correctIndex : Int
  explanation : String
deriving DecidableEq, Repr

/-- src/types.ts: `ReadingExercise`. -/
structure ReadingExercise where
  subject : String
  sender : String
  body : String
  questions : List ReadingQuestion
deriving DecidableEq, Repr

/-- ReadingView.handleSubmit (src/components/WritingView.tsx lines 250-253):
`exercise.questions.forEach((q, i) => { if (answers[i] === q.correctIndex)
correctCount++ })`.  A missing answer (`answers[i]` undefined, modelled as
`none`) never equals `q.correctIndex`. -/
def correctCount (qs : List ReadingQuestion) (answers : List Int) : Nat :=
  qs.enum.countP fun qi => answers.get? qi.1 == some qi.2.correctIndex

/-- ReadingView.handleSubmit (src/components/WritingView.tsx line 257):
`Math.round((correctCount / exercise.questions.length) * 100)`. -/
def readingScore (ex : ReadingExercise) (answers : List Int) : ℤ :=
  round (((correctCount ex.questions answers : ℚ) / (ex.questions.length : ℚ)) * 100)

/-- Computation rule: the rounded rational score equals an integer floor
division, `(200 * C + Q) / (2 * Q)`. -/
theorem readingScore_eq_div (ex : ReadingExercise) (answers : List Int)
    (hQ : ex.questions.length ≠ 0) :
    readingScore ex answers =
      (200 * (correctCount ex.questions answers : ℤ) + ex.questions.length)
        / (2 * (ex.questions.length : ℤ)) := by
  unfold readingScore
  have h : ((correctCount ex.questions answers : ℚ) / (ex.questions.length : ℚ)) * 100
        + 1 / 2
      = ((200 * (correctCount ex.questions answers : ℤ)
            + ex.questions.length : ℤ) : ℚ)
        / ((2 * ex.questions.length : ℕ) : ℚ) := by
    have hQ' : ((ex.questions.length : ℚ)) ≠ 0 := Nat.cast_ne_zero.mpr hQ
    field_simp
    ring
  rw [round_eq, h, Rat.floor_intCast_div_natCast]
  push_cast
  rfl

/-- C5: for a non-empty reading exercise with a complete answer assignment in
which `C` answers match the question's correct option index, the submitted
score is `round(100 * C / Q)`. -/
theorem C5_reading_score (ex : ReadingExercise) (answers : List Int) (C : Nat)
    (hQ : 0 < ex.questions.length)
    (hlen : answers.length = ex.questions.length)
    (hC : correctCount ex.questions answers = C) :
    readingScore ex answers = round ((100 * C : ℚ) / (ex.questions.length : ℚ)) := by
  unfold readingScore
  rw [hC]
  congr 1
  ring

/-- A concrete three-question exercise (shape of the few-shot example in
src/services/geminiService.ts). -/
def exampleQuestions : List ReadingQuestion :=
  [ { question := "q1", options := ["a", "b"], correctIndex := 1, explanation := "e1" }
  , { question := "q2", options := ["a", "b", "c"], correctIndex := 2, explanation := "e2" }
  , { question := "q3", options := ["a", "b"], correctIndex := 1, explanation := "e3" } ]

def exampleExercise : ReadingExercise :=
  { subject := "s", sender := "f", body := "b", questions := exampleQuestions }

/-- Answers hitting the correct option on questions 1 and 2 only. -/
def exampleAnswers : List Int := [1, 2, 0]

/-- C5 witness: 3 questions with 2 correct answers score
round(100 * 2 / 3) = 67. -/
theorem C5_reading_score_witness :
    0 < exampleExercise.questions.length ∧
    exampleAnswers.length = exampleExercise.questions.length ∧
    correctCount exampleExercise.questions exampleAnswers = 2 ∧
    readingScore exampleExercise exampleAnswers
      = round ((100 * (2 : ℕ) : ℚ) / (exampleExercise.questions.length : ℚ)) ∧
    readingScore exampleExercise exampleAnswers = 67 := by
  refine ⟨by decide, by decide, by decide, ?_, ?_⟩
  · exact C5_reading_score exampleExercise exampleAnswers 2 (by decide) (by decide)
      (by decide)
  · rw [readingScore_eq_div exampleExercise exampleAnswers (by decide)]
    decide

/-! ## C2: late asynchronous results after session teardown -/

/-- src/types.ts: `AppMode`. -/
inductive AppMode where
  | DASHBOARD
  | READING
  | WRITING
deriving DecidableEq, Repr

/-- src/types.ts: `WritingScenario`. -/
structure WritingScenario where
  context : String
  recipientRole : String
  goal : String
  keyPoints : List String
deriving DecidableEq, Repr

/-- The live state owned by the App component (src/App.tsx lines 12-17):
`userState`, `mode` and the `globalError` banner.  Session-local state
(spinner flags, the loaded exercise) dies with the session and is not live. -/
structure AppState where
  user : UserState
  mode : AppMode
  globalError : Option String
deriving DecidableEq, Repr

/-- src/App.tsx lines 44-76: the full effect of `handleExerciseComplete` on
the App component: apply the progression update and return to the
dashboard. -/
def appHandleExerciseComplete (now : String) (score : Nat) (ty : ExKind)
    (app : AppState) : AppState :=
  { app with user := handleExerciseComplete now score ty app.user
             mode := .DASHBOARD }

/-- The reading score as a natural number (it is a non-negative integer). -/
def readingScoreNat (ex : ReadingExercise) (answers : List Int) : Nat :=
  (readingScore ex answers).toNat

/-- The asynchronous continuations that can still be pending when a session
is torn down:
  * `readingLoad`  — the `generateReadingExercise` promise continuation
    (src/components/WritingView.tsx lines 216-236, ReadingView load effect);
  * `writingLoad`  — the `generateWritingScenario` promise continuation
    (src/components/WritingView.tsx lines 21-38, WritingView load effect);
  * `readingTimer` — the `setTimeout` callback scheduled by
    ReadingView.handleSubmit (src/components/WritingView.tsx lines 255-259),
    capturing the exercise and the answers. -/
inductive LateEvent where
  | readingLoad (res : Except String ReadingExercise)
  | writingLoad (res : Except String WritingScenario)
  | readingTimer (ex : ReadingExercise) (answers : List Int)

/-- Firing a pending continuation against the live state.  `mounted` is the
cleanup flag of the load effects: both promise continuations test it before
doing anything (their error branches call `onError`, which writes the global
error banner).  The `setTimeout` callback of ReadingView.handleSubmit performs
`onComplete(score)` — that is, `handleExerciseComplete` — WITHOUT consulting
any mounted flag, exactly as in the source. -/
def fireLate (now : String) (mounted : Bool) (e : LateEvent)
    (app : AppState) : AppState :=
  match e with
  | .readingLoad res =>
      if mounted then
        match res with
        | .ok _ => app
        | .error m =>
            { app with globalError := some ("Could not generate reading task: " ++ m) }
      else app
  | .writingLoad res =>
      if mounted then
        match res with
        | .ok _ => app
        | .error m =>
            { app with globalError := some ("Could not generate scenario: " ++ m) }
      else app
  | .readingTimer ex answers =>
      appHandleExerciseComplete now (readingScoreNat ex answers) .reading app

/-- A fresh app sitting on the dashboard with the default user state. -/
def initialApp : AppState :=
  { user := defaultUserState, mode := .DASHBOARD, globalError := none }

/-- C2 counterexample: after teardown (`mounted = false`) the pending reading
auto-completion timer still mutates the live state — at the concrete
three-question exercise with two correct answers it appends a history entry
(and applies the score), so a late-arriving result after teardown is NOT
always discarded. -/
theorem C2_counterexample :
    fireLate "t" false (.readingTimer exampleExercise exampleAnswers) initialApp
      ≠ initialApp ∧
    (fireLate "t" false (.readingTimer exampleExercise exampleAnswers)
      initialApp).user.history.length = 1 ∧
    initialApp.user.history.length = 0 := by
  have hscore : readingScoreNat exampleExercise exampleAnswers = 67 := by
    unfold readingScoreNat
    rw [readingScore_eq_div exampleExercise exampleAnswers (by decide)]
    decide
  have hlen : (fireLate "t" false
      (.readingTimer exampleExercise exampleAnswers) initialApp).user.history.length
      = 1 := by
    simp [fireLate, appHandleExerciseComplete, handleExerciseComplete, initialApp,
      defaultUserState]
  refine ⟨?_, hlen, rfl⟩
  intro heq
  have := congrArg (fun a => a.user.history.length) heq
  simp only [hlen] at this
  simp [initialApp, defaultUserState] at this

/-- C2 amended: after teardown the mounted-flag-guarded promise continuations
(the pending reading-exercise and writing-scenario generation responses) are
discarded and leave the live state untouched; the reading flow's
post-submission auto-completion timer, however, is not guarded and still
applies the score exactly as a live completion would, appending a history
entry. -/
theorem C2_late_events (now : String) (app : AppState)
    (rres : Except String ReadingExercise) (wres : Except String WritingScenario)
    (ex : ReadingExercise) (answers : List Int) :
    fireLate now false (.readingLoad rres) app = app ∧
    fireLate now false (.writingLoad wres) app = app ∧
    fireLate now false (.readingTimer ex answers) app
      = appHandleExerciseComplete now (readingScoreNat ex answers) .reading app ∧
    (fireLate now false (.readingTimer ex answers) app).user.history.length
      = app.user.history.length + 1 := by
  refine ⟨rfl, rfl, rfl, ?_⟩
  simp [fireLate, appHandleExerciseComplete, handleExerciseComplete]

/-! ## C3: structured-result validation in the LLM service -/

/-- What `JSON.parse(text) as ReadingQuestion` can actually deliver at
runtime: any subset of the fields (the cast performs no checks), so every
field is optional. -/
structure PartialReadingQuestion where
  question : Option String
  options : Option (List String)
  correctIndex : Option Int
  explanation : Option String
deriving DecidableEq, Repr

/-- What `JSON.parse(text) as ReadingExercise` can actually deliver. -/
structure PartialReadingExercise where
  subject : Option String
  sender : Option String
  body : Option String
  questions : Option (List PartialReadingQuestion)
deriving DecidableEq, Repr

/-- What `JSON.parse(text) as WritingScenario` can actually deliver. -/
structure PartialWritingScenario where
  context : Option String
  recipientRole : Option String
  goal : Option String
  keyPoints : Option (List String)
deriving DecidableEq, Repr

/-- What `JSON.parse(text) as WritingFeedback` can actually deliver. -/
structure PartialWritingFeedback where
  score : Option Int
  critique : Option String
  improvedVersion : Option String
  grammarMistakes : Option (List String)
deriving DecidableEq, Repr

/-- Spec-side (claim C3 / spec section 3): all required fields of a parsed
reading question are present. -/
def PartialReadingQuestion.complete (q : PartialReadingQuestion) : Bool :=
  q.question.isSome && q.options.isSome && q.correctIndex.isSome
    && q.explanation.isSome

/-- Spec-side (claim C3 / spec section 3): all required fields of a parsed
reading exercise are present and the array field is non-null. -/
def PartialReadingExercise.complete (d : PartialReadingExercise) : Bool :=
  d.subject.isSome && d.sender.isSome && d.body.isSome &&
    (match d.questions with
     | none => false
     | some qs => qs.all (·.complete))

/-- src/services/geminiService.ts lines 154-196: `generateReadingExercise`,
reduced to its response handling.  `respText` models `response.text`
(`none` = missing; the source guard `!response.text` also catches the empty
string).  `parse` models `JSON.parse` (`none` = the parse threw; the
surrounding try/catch rethrows, i.e. the call fails).  A parse success is
returned AS-IS — `JSON.parse(...) as ReadingExercise` is only a cast, no
field of the result is checked.  Prompt construction (level context, random
topic and tone) does not affect this path and is elided. -/
def generateReadingExercise (parse : String → Option PartialReadingExercise)
    (respText : Option String) : Except String PartialReadingExercise :=
  match respText with
  | none => .error "Empty response from AI model"
  | some t =>
      if t = "" then .error "Empty response from AI model"
      else
        match parse t with
        | none => .error "JSON parse failure"
        | some d => .ok d

/-- src/services/geminiService.ts lines 209-250: `generateWritingScenario`,
response handling only (same shape as `generateReadingExercise`). -/
def generateWritingScenario (parse : String → Option PartialWritingScenario)
    (respText : Option String) : Except String PartialWritingScenario :=
  match respText with
  | none => .error "Empty response from AI model"
  | some t =>
      if t = "" then .error "Empty response from AI model"
      else
        match parse t with
        | none => .error "JSON parse failure"
        | some d => .ok d

/-- src/services/geminiService.ts lines 263-305: `evaluateWriting`, response
handling only.  `level`, `scenario` and `userDraft` only shape the prompt. -/
def evaluateWriting (parse : String → Option PartialWritingFeedback)
    (level : Nat) (scenario : WritingScenario) (userDraft : String)
    (respText : Option String) : Except String PartialWritingFeedback :=
  match respText with
  | none => .error "Empty response from AI model"
  | some t =>
      if t = "" then .error "Empty response from AI model"
      else
        match parse t with
        | none => .error "JSON parse failure"
        | some d => .ok d

/-- A parse result with every required field absent. -/
def emptyPartialReadingExercise : PartialReadingExercise :=
  { subject := none, sender := none, body := none, questions := none }

/-- C3 counterexample: a response that parses as JSON but is missing every
required field is surfaced as a success, unvalidated — the claim that "a
successfully parsed object missing any required field fails" is false. -/
theorem C3_counterexample :
    generateReadingExercise (fun _ => some emptyPartialReadingExercise) (some "x")
      = .ok emptyPartialReadingExercise ∧
    PartialReadingExercise.complete emptyPartialReadingExercise = false := by
  exact ⟨rfl, rfl⟩

/-- C3 amended: every composer-driven call fails on an empty or missing
response text and on text that does not parse as JSON; but no local shape
validation happens after the parse — whatever object the parse produced is
returned as-is, even with required fields missing (schema enforcement is
delegated to the provider via `responseSchema`). -/
theorem C3_response_handling
    (rparse : String → Option PartialReadingExercise)
    (wparse : String → Option PartialWritingScenario)
    (fparse : String → Option PartialWritingFeedback)
    (level : Nat) (sc : WritingScenario) (draft : String) :
    (generateReadingExercise rparse none = .error "Empty response from AI model" ∧
     generateWritingScenario wparse none = .error "Empty response from AI model" ∧
     evaluateWriting fparse level sc draft none
       = .error "Empty response from AI model") ∧
    (generateReadingExercise rparse (some "")
       = .error "Empty response from AI model" ∧
     generateWritingScenario wparse (some "")
       = .error "Empty response from AI model" ∧
     evaluateWriting fparse level sc draft (some "")
       = .error "Empty response from AI model") ∧
    (∀ t, t ≠ "" → rparse t = none →
       generateReadingExercise rparse (some t) = .error "JSON parse failure") ∧
    (∀ t d, t ≠ "" → rparse t = some d →
       generateReadingExercise rparse (some t) = .ok d) ∧
    (∀ t, t ≠ "" → wparse t = none →
       generateWritingScenario wparse (some t) = .error "JSON parse failure") ∧
    (∀ t d, t ≠ "" → wparse t = some d →
       generateWritingScenario wparse (some t) = .ok d) ∧
    (∀ t, t ≠ "" → fparse t = none →
       evaluateWriting fparse level sc draft (some t) = .error "JSON parse failure") ∧
    (∀ t d, t ≠ "" → fparse t = some d →
       evaluateWriting fparse level sc draft (some t) = .ok d) := by
  refine ⟨⟨rfl, rfl, rfl⟩, ⟨rfl, rfl, rfl⟩, ?_, ?_, ?_, ?_, ?_, ?_⟩ <;>
    · first
      | (intro t hp hq
         simp only [generateReadingExercise, generateWritingScenario, evaluateWriting]
         split_ifs with h
         · exact absurd h hp
         · rw [hq])
      | (intro t d hp hq
         simp only [generateReadingExercise, generateWritingScenario, evaluateWriting]
         split_ifs with h
         · exact absurd h hp
         · rw [hq])

/-- C3 amended witness: a concrete always-failing parse and a concrete
successful parse exercise all branches at explicit inputs. -/
theorem C3_response_handling_witness :
    generateReadingExercise (fun _ => none) none
      = .error "Empty response from AI model" ∧
    generateReadingExercise (fun _ => none) (some "bad")
      = .error "JSON parse failure" ∧
    generateWritingScenario (fun _ => some ⟨some "c", none, none, none⟩) (some "y")
      = .ok ⟨some "c", none, none, none⟩ ∧
    evaluateWriting (fun _ => none) 3 ⟨"c", "r", "g", []⟩ "draft" (some "")
      = .error "Empty response from AI model" := by
  have h := C3_response_handling (fun _ => none)
    (fun _ => some ⟨some "c", none, none, none⟩) (fun _ => none)
    3 ⟨"c", "r", "g", []⟩ "draft"
  exact ⟨h.1.1, h.2.2.1 "bad" (by decide) rfl,
    h.2.2.2.2.2.1 "y" ⟨some "c", none, none, none⟩ (by decide) rfl, h.2.1.2.2⟩

/-! ## C9 and C10: the writing session submit operation -/

/-- src/types.ts: `WritingFeedback` (fully-typed, as consumed by the view). -/
structure WritingFeedback where
  score : Nat
  critique : String
  improvedVersion : String
  grammarMistakes : List String
deriving DecidableEq, Repr

/-- The state of the WritingView session
(src/components/WritingView.tsx lines 15-19). -/
structure WritingSession where
  analyzing : Bool
  scenario : Option WritingScenario
  userInput : String
  feedback : Option WritingFeedback
deriving DecidableEq, Repr

/-- The source test `!userInput.trim()`: trimming leading and trailing
whitespace leaves the empty string, which holds exactly when every character
of the draft is whitespace (executable form of `s.trim = ""`). -/
def trimEmpty (s : String) : Bool :=
  s.data.all Char.isWhitespace

/-- src/components/WritingView.tsx lines 40-53: `handleSubmit`.
Returns the resulting session state, the messages passed to `onError`, and
whether an evaluation request was issued.  The guard
`if (!scenario || !userInput.trim()) return;` makes the call a complete no-op
when no scenario is loaded or the trimmed draft is empty.  Otherwise
`setAnalyzing(true)` is issued, `evaluateWriting` is awaited (its outcome is
the `evalResult` argument), success stores the feedback, failure reports
`onError`, and the `finally` clause resets `analyzing`. -/
def writingHandleSubmit (s : WritingSession)
    (evalResult : Except String WritingFeedback) :
    WritingSession × List String × Bool :=
  if s.scenario = none ∨ trimEmpty s.userInput = true then (s, [], false)
  else
    match evalResult with
    | .ok fb => ({ s with feedback := some fb, analyzing := false }, [], true)
    | .error m =>
        ({ s with analyzing := false }, ["AI Analysis Error: " ++ m], true)

/-- src/components/WritingView.tsx line 185: the submit button is enabled iff
`userInput.length < 10` is false (a length-only guard: whitespace counts). -/
def submitButtonEnabled (s : WritingSession) : Bool :=
  !(s.userInput.length < 10 : Bool)

/-- C9: when the evaluation request fails, the session keeps its scenario,
draft and (absent) feedback — it remains Ready and editable — the error is
reported upward exactly once, and the submit guard still passes, so the
learner may resubmit. -/
theorem C9_evaluation_failure (s : WritingSession) (sc : WritingScenario)
    (m : String) (hsc : s.scenario = some sc)
    (hne : trimEmpty s.userInput = false) :
    writingHandleSubmit s (.error m)
      = ({ s with analyzing := false }, ["AI Analysis Error: " ++ m], true) ∧
    (writingHandleSubmit s (.error m)).1.feedback = s.feedback ∧
    (writingHandleSubmit s (.error m)).1.userInput = s.userInput ∧
    (writingHandleSubmit s (.error m)).1.scenario = s.scenario ∧
    ¬((writingHandleSubmit s (.error m)).1.scenario = none ∨
      trimEmpty (writingHandleSubmit s (.error m)).1.userInput = true) := by
  have hguard : ¬(s.scenario = none ∨ trimEmpty s.userInput = true) := by
    rw [hsc]
    simp [hne]
  have heq : writingHandleSubmit s (.error m)
      = ({ s with analyzing := false }, ["AI Analysis Error: " ++ m], true) := by
    unfold writingHandleSubmit
    rw [if_neg hguard]
  refine ⟨heq, ?_, ?_, ?_, ?_⟩ <;> rw [heq]
  simp [hsc, hne]

/-- C9 witness: a ready session with a loaded scenario and a real draft,
hit by a failing evaluation, stays intact and logs one error. -/
theorem C9_evaluation_failure_witness :
    (⟨false, some ⟨"c", "QA", "g", ["p"]⟩, "Hello Alex, I will check.", none⟩
        : WritingSession).scenario = some ⟨"c", "QA", "g", ["p"]⟩ ∧
    writingHandleSubmit
        ⟨false, some ⟨"c", "QA", "g", ["p"]⟩, "Hello Alex, I will check.", none⟩
        (.error "boom")
      = (⟨false, some ⟨"c", "QA", "g", ["p"]⟩, "Hello Alex, I will check.", none⟩,
         ["AI Analysis Error: boom"], true) := by
  refine ⟨rfl, ?_⟩
  exact (C9_evaluation_failure
    ⟨false, some ⟨"c", "QA", "g", ["p"]⟩, "Hello Alex, I will check.", none⟩
    ⟨"c", "QA", "g", ["p"]⟩ "boom" rfl (by rfl)).1

/-- C10: submitting with no scenario loaded or a whitespace-only (trimmed
empty) draft is a complete no-op — no evaluation request is issued, no error
is reported, and the session state is returned unchanged. -/
theorem C10_submit_noop (s : WritingSession) (r : Except String WritingFeedback)
    (h : s.scenario = none ∨ trimEmpty s.userInput = true) :
    writingHandleSubmit s r = (s, [], false) := by
  unfold writingHandleSubmit
  rw [if_pos h]

/-- C10 witness: a ten-space draft passes the length-only button guard yet
submit is a no-op; likewise with no scenario loaded. -/
theorem C10_submit_noop_witness :
    trimEmpty "          " = true ∧
    submitButtonEnabled ⟨false, some ⟨"c", "QA", "g", ["p"]⟩, "          ", none⟩
      = true ∧
    writingHandleSubmit ⟨false, some ⟨"c", "QA", "g", ["p"]⟩, "          ", none⟩
        (.ok ⟨80, "crit", "better", []⟩)
      = (⟨false, some ⟨"c", "QA", "g", ["p"]⟩, "          ", none⟩, [], false) ∧
    writingHandleSubmit ⟨false, none, "a sufficiently long draft", none⟩
        (.ok ⟨80, "crit", "better", []⟩)
      = (⟨false, none, "a sufficiently long draft", none⟩, [], false) := by
  refine ⟨by rfl, by decide, ?_, ?_⟩
  · exact C10_submit_noop
      ⟨false, some ⟨"c", "QA", "g", ["p"]⟩, "          ", none⟩
      (.ok ⟨80, "crit", "better", []⟩) (Or.inr (by rfl))
  · exact C10_submit_noop ⟨false, none, "a sufficiently long draft", none⟩
      (.ok ⟨80, "crit", "better", []⟩) (Or.inl rfl)

end TechComm
